import Mathlib

/-!
Verification of the IndyAudio desktop audio player (`src/app.py`).

The player's logic is embedded shallowly: wall-clock instants and track
lengths are rationals, the external `ffplay` process handle is modelled
as `Option Bool` (`some true` = running, i.e. `poll()` returns `None`;
`some false` = exited; `none` = no process), and every operation that
reads the wall clock receives the instant `now` as an explicit argument.
Fallible external calls (process spawn, metadata/tag reads, `ffprobe`)
are parametrised by their outcome.
-/

set_option autoImplicit false

namespace IndyAudio

/-- Python `int(x)` on a real value: truncation toward zero. -/
def ratTrunc (q : ℚ) : ℤ :=
  if 0 ≤ q then ⌊q⌋ else -⌊-q⌋

/-- Python `f"{n:02}"`: decimal rendering of an integer, left-padded with
zeros to a minimum width of two characters.  (For width two the sign-aware
padding of Python coincides with plain left-padding, since any negative
integer already renders with at least two characters.) -/
def fmt02 (n : ℤ) : String :=
  let s := toString n
  if s.length < 2 then String.mk (List.replicate (2 - s.length) '0') ++ s else s

/-- `AudioPlayer.format_time` (src/app.py lines 166-169):
`m, s = divmod(int(seconds), 60); return f"{m:02}:{s:02}"`.
Python `divmod` is floored division (`Int.fdiv`) with the matching
remainder (`Int.fmod`); `divmod` is inlined into the two uses. -/
def format_time (seconds : ℚ) : String :=
  fmt02 (Int.fdiv (ratTrunc seconds) 60) ++ ":" ++ fmt02 (Int.fmod (ratTrunc seconds) 60)

/-- The possible outcomes of the external `ffprobe` invocation in
`get_duration_with_ffprobe` (src/app.py lines 24-37): the executable is
absent from `PATH`, the subprocess or the float parse raises, the command
produces empty output, or it outputs a string parsing to the rational `q`. -/
inductive ProbeResult : Type
  | noExe : ProbeResult
  | raises : ProbeResult
  | emptyOutput : ProbeResult
  | output (q : ℚ) : ProbeResult
deriving DecidableEq

/-- `get_duration_with_ffprobe` (src/app.py lines 24-37): returns `0.0`
when `ffprobe` is missing, when the invocation or parse raises, or when the
output is empty; otherwise the parsed duration. -/
def get_duration_with_ffprobe : ProbeResult → ℚ
  | ProbeResult.noExe => 0
  | ProbeResult.raises => 0
  | ProbeResult.emptyOutput => 0
  | ProbeResult.output q => q

/-- The playback-relevant state of the `AudioPlayer` window:
the loaded file path, the `ffplay` process handle (`some true` = running,
`some false` = exited, `none` = absent), the two timestamps, the track
length, the scrub-drag flag, and the slider / time-label widget contents
(src/app.py lines 82-87, 122-130, 154). -/
structure PlayerState where
  current_file : Option String
  process : Option Bool
  start_time : ℚ
  pause_time : ℚ
  length : ℚ
  slider_dragging : Bool
  sliderVal : ℤ
  sliderEnabled : Bool
  timeLabel : String
deriving DecidableEq

/-- The state established by `AudioPlayer.__init__` (src/app.py lines
82-87, 123-129, 154). -/
def initState : PlayerState :=
  { current_file := none
    process := none
    start_time := 0
    pause_time := 0
    length := 0
    slider_dragging := false
    sliderVal := 0
    sliderEnabled := false
    timeLabel := "00:00 / 00:00" }

/-- `AudioPlayer.kill_ffplay` (src/app.py lines 269-283): terminates and
forgets the process handle.  The signalling details have no effect on the
modelled state beyond `process = None`. -/
def kill_ffplay (s : PlayerState) : PlayerState :=
  { s with process := none }

/-- `AudioPlayer.start_ffplay` (src/app.py lines 247-267): kill any running
process, bail out when no file is loaded, then spawn `ffplay -ss start_sec`.
`spawnOk` is the outcome of `subprocess.Popen`: on success the process runs
and `start_time = now - start_sec`; on failure the handle stays `None` and
`start_time` is untouched. -/
def start_ffplay (now : ℚ) (spawnOk : Bool) (start_sec : ℚ) (s : PlayerState) :
    PlayerState :=
  let s1 := kill_ffplay s
  match s1.current_file with
  | none => s1
  | some _ =>
    if spawnOk then { s1 with process := some true, start_time := now - start_sec }
    else { s1 with process := none }

/-- `AudioPlayer.play_pause_toggle` (src/app.py lines 286-295): no-op
without a loaded file; while the process runs, store the clamped elapsed
position in `pause_time` and kill the process; otherwise resume by
restarting `ffplay` at `pause_time`. -/
def play_pause_toggle (now : ℚ) (spawnOk : Bool) (s : PlayerState) : PlayerState :=
  match s.current_file with
  | none => s
  | some _ =>
    if s.process = some true then
      kill_ffplay { s with pause_time := max 0 (min (now - s.start_time) s.length) }
    else
      start_ffplay now spawnOk s.pause_time s

/-- `AudioPlayer.stop_internal` (src/app.py lines 314-322): kill the
process, zero both timestamps, reset the slider and the time label. -/
def stop_internal (s : PlayerState) : PlayerState :=
  let s1 := kill_ffplay s
  { s1 with
    start_time := 0
    pause_time := 0
    sliderVal := 0
    timeLabel := "00:00 / " ++ format_time (if s1.length ≠ 0 then s1.length else 0) }

/-- `AudioPlayer.slider_pressed` (src/app.py lines 325-326). -/
def slider_pressed (s : PlayerState) : PlayerState :=
  { s with slider_dragging := true }

/-- `AudioPlayer.update_preview_time` (src/app.py lines 328-332). -/
def update_preview_time (slider_val : ℤ) (s : PlayerState) : PlayerState :=
  if s.length ≠ 0 ∧ s.slider_dragging then
    { s with
      timeLabel :=
        format_time ((slider_val : ℚ) / 1000 * s.length) ++ " / " ++ format_time s.length }
  else s

/-- `AudioPlayer.scrub` (src/app.py lines 334-341): clear the drag flag;
bail out when no file is loaded or the length is zero; otherwise clamp the
slider-derived position into `[0, length]`, store it in `pause_time`, and
restart `ffplay` there. -/
def scrub (now : ℚ) (spawnOk : Bool) (s : PlayerState) : PlayerState :=
  let s0 := { s with slider_dragging := false }
  if s0.current_file = none ∨ s0.length = 0 then s0
  else
    let pos_seconds := (s0.sliderVal : ℚ) / 1000 * s0.length
    let s1 := { s0 with pause_time := max 0 (min pos_seconds s0.length) }
    start_ffplay now spawnOk s1.pause_time s1

/-- `AudioPlayer.update_slider` (src/app.py lines 344-359): bail out when
no file is loaded, the length is zero, or a drag is in progress; compute
elapsed from the wall clock while the process runs (clamped below by 0),
otherwise from `pause_time`; clamp above by `length`; write the slider and
the time label; finally, when the process has exited, record `pause_time =
length` and reap the process. -/
def update_slider (now : ℚ) (s : PlayerState) : PlayerState :=
  if s.current_file = none ∨ s.length = 0 ∨ s.slider_dragging then s
  else
    let elapsed0 := if s.process = some true then max 0 (now - s.start_time) else s.pause_time
    let elapsed := min elapsed0 s.length
    let s1 :=
      { s with
        sliderVal := if 0 < s.length then ratTrunc (elapsed / s.length * 1000) else 0
        timeLabel := format_time elapsed ++ " / " ++ format_time s.length }
    if s1.process = some false then kill_ffplay { s1 with pause_time := s1.length }
    else s1

/-- `AudioPlayer.load_file` (src/app.py lines 179-203): stop, record the
new path, reset the timestamps, disable the slider, probe the duration
(mutagen first — `mutagenLen = none` covers a falsy file object, a missing
`info`, or a raising float conversion — falling back to `ffprobe` when the
mutagen length is at most `0.0001`), floor the length at zero, enable the
slider exactly when the length is positive, and start playback. -/
def load_file (now : ℚ) (spawnOk : Bool) (path : String) (mutagenLen : Option ℚ)
    (probe : ProbeResult) (s : PlayerState) : PlayerState :=
  let s1 := stop_internal s
  let s2 :=
    { s1 with
      current_file := some path
      start_time := 0
      pause_time := 0
      sliderEnabled := false }
  let rawLen := mutagenLen.getD 0
  let len := if rawLen ≤ 1 / 10000 then get_duration_with_ffprobe probe else rawLen
  let s3 := { s2 with length := if 0 < len then len else 0 }
  let s4 := { s3 with sliderEnabled := 0 < s3.length }
  start_ffplay now spawnOk s4.pause_time s4

/-- The outcome of a Python expression that may raise. -/
inductive Outcome (α : Type) : Type
  | raise : Outcome α
  | ok (val : α) : Outcome α
deriving DecidableEq

/-- The observable content of an `ID3(path)` tag object as used by
`extract_metadata` (src/app.py lines 221-229): its truthiness, the first
text of the `TIT2` and `TPE1` frames when present, and whether an `APIC`
picture is present whose data loads into a pixmap. -/
structure ID3Tags where
  nonempty : Bool
  tit2 : Option String
  tpe1 : Option String
  apicLoads : Option Bool
deriving DecidableEq

/-- The file object returned by `MutagenFile(path)` as far as
`extract_metadata` inspects it: either a FLAC object (with optional
`title` / `artist` tags and an optional picture whose data may load),
or any other truthy file object. -/
inductive MFile : Type
  | flac (title artist : Option String) (picLoads : Option Bool) : MFile
  | other : MFile
deriving DecidableEq

/-- What `extract_metadata` leaves on the window: the title label text is
`"{title} - {artist}"` when the artist is nonempty and `title` alone
otherwise; `defaultArt` records whether the artwork shown is the default
(no embedded picture replaced it). -/
structure Metadata where
  title : String
  artist : String
  defaultArt : Bool
deriving DecidableEq

/-- The title-label text set at src/app.py line 242. -/
def titleText (title artist : String) : String :=
  if artist ≠ "" then title ++ " - " ++ artist else title

/-- `AudioPlayer.extract_metadata` (src/app.py lines 205-244).
`file_name` is `os.path.basename(path)`; `mutagen` is the outcome of the
`MutagenFile(path)` call on line 217, which sits OUTSIDE the try block, so
its exception propagates out of the function; `id3` is the outcome of the
`ID3(path)` call on line 221, whose exception is caught and routed to the
FLAC fallback.  Defaults: `title = file_name`, `artist = ""`, default
artwork. -/
def extract_metadata (file_name : String) (mutagen : Outcome (Option MFile))
    (id3 : Outcome ID3Tags) : Outcome Metadata :=
  match mutagen with
  | Outcome.raise => Outcome.raise
  | Outcome.ok none =>
      Outcome.ok { title := file_name, artist := "", defaultArt := true }
  | Outcome.ok (some audio) =>
    match id3 with
    | Outcome.ok tags =>
      if tags.nonempty then
        Outcome.ok
          { title := tags.tit2.getD file_name
            artist := tags.tpe1.getD ""
            defaultArt := tags.apicLoads ≠ some true }
      else Outcome.ok { title := file_name, artist := "", defaultArt := true }
    | Outcome.raise =>
      match audio with
      | MFile.flac t a pic =>
          Outcome.ok
            { title := t.getD file_name
              artist := a.getD ""
              defaultArt := pic ≠ some true }
      | MFile.other =>
          Outcome.ok { title := file_name, artist := "", defaultArt := true }

/-- Python `round(x)` on a real value: round half to even (banker's
rounding), as used in `SeekSlider.mousePressEvent`. -/
def roundHalfEven (q : ℚ) : ℤ :=
  if q - ⌊q⌋ < 1 / 2 then ⌊q⌋
  else if 1 / 2 < q - ⌊q⌋ then ⌊q⌋ + 1
  else if ⌊q⌋ % 2 = 0 then ⌊q⌋ else ⌊q⌋ + 1

/-- The slider value computed by `SeekSlider.mousePressEvent`
(src/app.py lines 44-53): `ratio = max(0.0, min(1.0, x / w))`, then
`int(round(ratio * (maximum - minimum))) + minimum`. -/
def mousePressValue (x w : ℚ) (minV maxV : ℤ) : ℤ :=
  let ratio := max 0 (min 1 (x / w))
  roundHalfEven (ratio * ((maxV : ℚ) - (minV : ℚ))) + minV

/-- Decimal digits of a natural number, claim-side: `Nat.repr`. -/
def natDigits (n : ℕ) : String := Nat.repr n

/-- Claim-side padding: the decimal of `n` left-padded with zeros to at
least two digits. -/
def padTwo (n : ℕ) : String :=
  let s := natDigits n
  if s.length < 2 then String.mk (List.replicate (2 - s.length) '0') ++ s else s

/-- The rendering the C8 claim describes: minutes `⌊t⌋ / 60` padded to at
least two digits, a colon, seconds `⌊t⌋ % 60` padded to two digits. -/
def format_time_claim (t : ℚ) : String :=
  padTwo (⌊t⌋.toNat / 60) ++ ":" ++ padTwo (⌊t⌋.toNat % 60)

/-- The states of the player reachable from `__init__` under the
user-triggered operations (loading a file, toggling play/pause, dragging
and releasing the slider, the 200 ms timer tick) and the environment
action of the `ffplay` process exiting on its own. -/
inductive Reachable : PlayerState → Prop
  | init : Reachable initState
  | load (now : ℚ) (spawnOk : Bool) (path : String) (mutagenLen : Option ℚ)
      (probe : ProbeResult) (s : PlayerState) :
      Reachable s → Reachable (load_file now spawnOk path mutagenLen probe s)
  | toggle (now : ℚ) (spawnOk : Bool) (s : PlayerState) :
      Reachable s → Reachable (play_pause_toggle now spawnOk s)
  | scrubStep (now : ℚ) (spawnOk : Bool) (s : PlayerState) :
      Reachable s → Reachable (scrub now spawnOk s)
  | tick (now : ℚ) (s : PlayerState) :
      Reachable s → Reachable (update_slider now s)
  | press (s : PlayerState) :
      Reachable s → Reachable (slider_pressed s)
  | preview (v : ℤ) (s : PlayerState) :
      Reachable s → Reachable (update_preview_time v s)
  | setSlider (v : ℤ) (s : PlayerState) :
      Reachable s → Reachable { s with sliderVal := v }
  | stop (s : PlayerState) :
      Reachable s → Reachable (stop_internal s)
  | closeWin (s : PlayerState) :
      Reachable s → Reachable (kill_ffplay s)
  | procExit (s : PlayerState) :
      Reachable s → s.process = some true → Reachable { s with process := some false }

/-! ### Helper lemmas -/

lemma kill_ffplay_fields (s : PlayerState) :
    (kill_ffplay s).current_file = s.current_file ∧
    (kill_ffplay s).pause_time = s.pause_time ∧
    (kill_ffplay s).length = s.length := by
  refine ⟨rfl, rfl, rfl⟩

lemma start_ffplay_current_file (now : ℚ) (ok : Bool) (sec : ℚ) (s : PlayerState) :
    (start_ffplay now ok sec s).current_file = s.current_file := by
  unfold start_ffplay kill_ffplay
  cases hc : s.current_file
  · simp [hc]
  · simp only [hc]
    split <;> rfl

lemma start_ffplay_pause_time (now : ℚ) (ok : Bool) (sec : ℚ) (s : PlayerState) :
    (start_ffplay now ok sec s).pause_time = s.pause_time := by
  unfold start_ffplay kill_ffplay
  cases hc : s.current_file
  · simp [hc]
  · simp only [hc]
    split <;> rfl

lemma start_ffplay_length (now : ℚ) (ok : Bool) (sec : ℚ) (s : PlayerState) :
    (start_ffplay now ok sec s).length = s.length := by
  unfold start_ffplay kill_ffplay
  cases hc : s.current_file
  · simp [hc]
  · simp only [hc]
    split <;> rfl

lemma start_ffplay_sliderEnabled (now : ℚ) (ok : Bool) (sec : ℚ) (s : PlayerState) :
    (start_ffplay now ok sec s).sliderEnabled = s.sliderEnabled := by
  unfold start_ffplay kill_ffplay
  cases hc : s.current_file
  · simp [hc]
  · simp only [hc]
    split <;> rfl

lemma start_ffplay_spawn_ok (now : ℚ) (sec : ℚ) (s : PlayerState) (f : String)
    (hc : s.current_file = some f) :
    (start_ffplay now true sec s).process = some true ∧
    (start_ffplay now true sec s).start_time = now - sec := by
  unfold start_ffplay kill_ffplay
  simp [hc]

lemma play_pause_toggle_resume (now : ℚ) (ok : Bool) (u : PlayerState) (f : String)
    (hc : u.current_file = some f) (hp : u.process ≠ some true) :
    play_pause_toggle now ok u = start_ffplay now ok u.pause_time u := by
  unfold play_pause_toggle
  simp [hc, hp]

/-! ### C1: pause followed by resume preserves the playback position -/

/-- C1.  For a loaded track playing with position `p = t1 - start_time`,
`0 ≤ p ≤ length`: toggling at wall-clock `t1` stores `pause_time = p`
(the clamp to `[0, length]` is the identity there), and toggling again at
wall-clock `t2` (with the spawn succeeding) sets `start_time = t2 - p`,
so the elapsed position right after resuming, `t2 - start_time`, is `p`. -/
theorem C1_pause_resume_preserves_position
    (s : PlayerState) (f : String) (t1 t2 p : ℚ) (ok1 : Bool)
    (hf : s.current_file = some f)
    (hproc : s.process = some true)
    (hp : p = t1 - s.start_time)
    (h0 : 0 ≤ p) (hl : p ≤ s.length) :
    (play_pause_toggle t1 ok1 s).pause_time = p ∧
    t2 - (play_pause_toggle t2 true (play_pause_toggle t1 ok1 s)).start_time = p := by
  have hpause : play_pause_toggle t1 ok1 s =
      kill_ffplay { s with pause_time := max 0 (min (t1 - s.start_time) s.length) } := by
    unfold play_pause_toggle
    simp [hf, hproc]
  have hclamp : max 0 (min (t1 - s.start_time) s.length) = p := by
    rw [← hp, min_eq_left hl, max_eq_right h0]
  have h1 : (play_pause_toggle t1 ok1 s).pause_time = p := by
    rw [hpause]; exact hclamp
  refine ⟨h1, ?_⟩
  have hc1 : (play_pause_toggle t1 ok1 s).current_file = some f := by
    rw [hpause]; exact hf
  have hpr1 : (play_pause_toggle t1 ok1 s).process = none := by
    rw [hpause]; rfl
  have hres : play_pause_toggle t2 true (play_pause_toggle t1 ok1 s) =
      start_ffplay t2 true (play_pause_toggle t1 ok1 s).pause_time
        (play_pause_toggle t1 ok1 s) :=
    play_pause_toggle_resume t2 true (play_pause_toggle t1 ok1 s) f hc1
      (by rw [hpr1]; exact fun h => Option.noConfusion h)
  have hst := (start_ffplay_spawn_ok t2 (play_pause_toggle t1 ok1 s).pause_time
    (play_pause_toggle t1 ok1 s) f hc1).2
  rw [hres, hst, h1]
  ring

/-- C1 witness: a concrete track of length 10, started at wall-clock 2,
paused at wall-clock 5 (position 3) and resumed at wall-clock 9. -/
theorem C1_witness :
    ((play_pause_toggle 5 false
        { initState with
          current_file := some "a.mp3", process := some true,
          start_time := 2, length := 10 }).pause_time = 3) ∧
    ((9 : ℚ) - (play_pause_toggle 9 true (play_pause_toggle 5 false
        { initState with
          current_file := some "a.mp3", process := some true,
          start_time := 2, length := 10 })).start_time = 3) :=
  C1_pause_resume_preserves_position
    { initState with
      current_file := some "a.mp3", process := some true,
      start_time := 2, length := 10 }
    "a.mp3" 5 9 3 false rfl rfl (by norm_num) (by norm_num) (by norm_num)

/-! ### C2: the displayed elapsed time never exceeds the track length -/

lemma ratTrunc_le_of_le (q : ℚ) (M : ℤ) (hM : 0 ≤ M) (h : q ≤ (M : ℚ)) :
    ratTrunc q ≤ M := by
  unfold ratTrunc
  split
  · calc ⌊q⌋ ≤ ⌊(M : ℚ)⌋ := Int.floor_le_floor h
    _ = M := Int.floor_intCast M
  · have hq : ¬ 0 ≤ q := by assumption
    have h1 : 0 ≤ -q := by linarith [lt_of_not_le hq]
    have h2 : 0 ≤ ⌊-q⌋ := Int.floor_nonneg.mpr h1
    omega

lemma if_exited_timeLabel (u : PlayerState) :
    (if u.process = some false then kill_ffplay { u with pause_time := u.length }
      else u).timeLabel = u.timeLabel := by
  split <;> rfl

lemma if_exited_sliderVal (u : PlayerState) :
    (if u.process = some false then kill_ffplay { u with pause_time := u.length }
      else u).sliderVal = u.sliderVal := by
  split <;> rfl

lemma update_slider_eq (now : ℚ) (s : PlayerState)
    (hguard : ¬ (s.current_file = none ∨ s.length = 0 ∨ s.slider_dragging = true)) :
    (update_slider now s).timeLabel =
      format_time (min (if s.process = some true then max 0 (now - s.start_time)
        else s.pause_time) s.length) ++ " / " ++ format_time s.length ∧
    (update_slider now s).sliderVal =
      (if 0 < s.length then
        ratTrunc ((min (if s.process = some true then max 0 (now - s.start_time)
          else s.pause_time) s.length) / s.length * 1000)
      else 0) := by
  unfold update_slider
  rw [if_neg hguard]
  constructor
  · by_cases hpf : s.process = some false <;> simp [hpf, kill_ffplay]
  · by_cases hpf : s.process = some false <;> simp [hpf, kill_ffplay]

/-- C2.  Whenever `update_slider` passes its guard (a file is loaded, the
length is positive, no drag is in progress), the elapsed value it computes
and writes is at most `length`: the time label shows
`format_time elapsed / format_time length` with `elapsed ≤ length`, and the
slider value written is at most 1000. -/
theorem C2_elapsed_never_exceeds_length
    (s : PlayerState) (now : ℚ)
    (hf : s.current_file ≠ none) (hl : 0 < s.length)
    (hd : s.slider_dragging = false) :
    ∃ elapsed : ℚ, elapsed ≤ s.length ∧
      (update_slider now s).timeLabel =
        format_time elapsed ++ " / " ++ format_time s.length ∧
      (update_slider now s).sliderVal ≤ 1000 := by
  have hguard : ¬ (s.current_file = none ∨ s.length = 0 ∨ s.slider_dragging = true) := by
    push_neg
    exact ⟨hf, ne_of_gt hl, by rw [hd]; exact Bool.false_ne_true⟩
  obtain ⟨hlab, hval⟩ := update_slider_eq now s hguard
  refine ⟨min (if s.process = some true then max 0 (now - s.start_time)
    else s.pause_time) s.length, min_le_right _ _, hlab, ?_⟩
  rw [hval, if_pos hl]
  apply ratTrunc_le_of_le _ 1000 (by norm_num)
  have h1 : (min (if s.process = some true then max 0 (now - s.start_time)
      else s.pause_time) s.length) / s.length ≤ 1 :=
    (div_le_one hl).mpr (min_le_right _ _)
  push_cast
  nlinarith

/-- A sample state: a paused track of length 10 at pause offset 4. -/
def pausedSample : PlayerState :=
  { initState with current_file := some "a.mp3", pause_time := 4, length := 10 }

/-- C2 witness: the paused sample state, queried at wall-clock 7. -/
theorem C2_witness :
    ∃ elapsed : ℚ, elapsed ≤ pausedSample.length ∧
      (update_slider 7 pausedSample).timeLabel =
        format_time elapsed ++ " / " ++ format_time pausedSample.length ∧
      (update_slider 7 pausedSample).sliderVal ≤ 1000 :=
  C2_elapsed_never_exceeds_length pausedSample 7 (by decide) (by norm_num [pausedSample, initState]) rfl

/-! ### C3: seeking clamps to the interval from 0 to the track length -/

lemma scrub_eq (now : ℚ) (ok : Bool) (s : PlayerState)
    (hguard : ¬ (s.current_file = none ∨ s.length = 0)) :
    scrub now ok s =
      start_ffplay now ok (max 0 (min ((s.sliderVal : ℚ) / 1000 * s.length) s.length))
        { s with
            slider_dragging := false
            pause_time := max 0 (min ((s.sliderVal : ℚ) / 1000 * s.length) s.length) } := by
  unfold scrub
  simp only []
  rw [if_neg hguard]

/-- C3.  For a loaded track with positive length and a slider value `v`
in `[0, 1000]` (the widget's range), `scrub` sets
`pause_time = max 0 (min (v / 1000 * length) length)`, a value in
`[0, length]`, and — when the spawn succeeds — restarts playback there:
the process runs and `start_time = now - pause_time`. -/
theorem C3_scrub_clamps_to_length
    (s : PlayerState) (now : ℚ) (f : String)
    (hf : s.current_file = some f) (hl : 0 < s.length)
    (hv0 : 0 ≤ s.sliderVal) (hv1 : s.sliderVal ≤ 1000) :
    (scrub now true s).pause_time =
      max 0 (min ((s.sliderVal : ℚ) / 1000 * s.length) s.length) ∧
    0 ≤ (scrub now true s).pause_time ∧
    (scrub now true s).pause_time ≤ s.length ∧
    (scrub now true s).process = some true ∧
    (scrub now true s).start_time = now - (scrub now true s).pause_time := by
  have hguard : ¬ (s.current_file = none ∨ s.length = 0) := by
    push_neg
    exact ⟨by rw [hf]; exact fun h => Option.noConfusion h, ne_of_gt hl⟩
  have hscrub := scrub_eq now true s hguard
  have hcf : ({ s with
      slider_dragging := false
      pause_time := max 0 (min ((s.sliderVal : ℚ) / 1000 * s.length) s.length) } :
      PlayerState).current_file = some f := hf
  have hsp := start_ffplay_spawn_ok now
    (max 0 (min ((s.sliderVal : ℚ) / 1000 * s.length) s.length))
    { s with
        slider_dragging := false
        pause_time := max 0 (min ((s.sliderVal : ℚ) / 1000 * s.length) s.length) }
    f hcf
  have hpt : (scrub now true s).pause_time =
      max 0 (min ((s.sliderVal : ℚ) / 1000 * s.length) s.length) := by
    rw [hscrub, start_ffplay_pause_time]
  refine ⟨hpt, ?_, ?_, ?_, ?_⟩
  · rw [hpt]; exact le_max_left 0 _
  · rw [hpt]
    exact max_le (le_of_lt hl) (min_le_right _ _)
  · rw [hscrub]; exact hsp.1
  · rw [hpt, hscrub]; exact hsp.2

/-- A sample state: a loaded track of length 10 with the slider at 500. -/
def scrubSample : PlayerState :=
  { initState with current_file := some "a.mp3", length := 10, sliderVal := 500 }

/-- C3 witness: the scrub sample state, scrubbed at wall-clock 20. -/
theorem C3_witness :
    (scrub 20 true scrubSample).pause_time =
      max 0 (min ((scrubSample.sliderVal : ℚ) / 1000 * scrubSample.length)
        scrubSample.length) ∧
    0 ≤ (scrub 20 true scrubSample).pause_time ∧
    (scrub 20 true scrubSample).pause_time ≤ scrubSample.length ∧
    (scrub 20 true scrubSample).process = some true ∧
    (scrub 20 true scrubSample).start_time =
      20 - (scrub 20 true scrubSample).pause_time :=
  C3_scrub_clamps_to_length scrubSample 20 "a.mp3" rfl
    (by norm_num [scrubSample, initState])
    (by norm_num [scrubSample, initState])
    (by norm_num [scrubSample, initState])

/-! ### C4: the invariant pause_time ≤ length in every reachable state -/

/-- The data-model invariant: the length is never negative and the pause
offset never exceeds it. -/
def Inv (s : PlayerState) : Prop :=
  0 ≤ s.length ∧ s.pause_time ≤ s.length

lemma start_ffplay_inv (now : ℚ) (ok : Bool) (sec : ℚ) (s : PlayerState)
    (h : Inv s) : Inv (start_ffplay now ok sec s) := by
  unfold Inv
  rw [start_ffplay_pause_time, start_ffplay_length]
  exact h

lemma play_pause_toggle_inv (now : ℚ) (ok : Bool) (s : PlayerState)
    (h : Inv s) : Inv (play_pause_toggle now ok s) := by
  unfold play_pause_toggle
  cases hc : s.current_file
  · simpa using h
  · simp only
    split
    · refine ⟨h.1, ?_⟩
      exact max_le h.1 (min_le_right _ _)
    · exact start_ffplay_inv now ok s.pause_time s h

lemma scrub_inv (now : ℚ) (ok : Bool) (s : PlayerState)
    (h : Inv s) : Inv (scrub now ok s) := by
  unfold scrub
  simp only []
  split
  · exact h
  · refine start_ffplay_inv now ok _ _ ?_
    exact ⟨h.1, max_le h.1 (min_le_right _ _)⟩

lemma update_slider_inv (now : ℚ) (s : PlayerState)
    (h : Inv s) : Inv (update_slider now s) := by
  unfold update_slider
  split
  · exact h
  · by_cases hpf : s.process = some false <;> simp [hpf, kill_ffplay, Inv]
    · exact h.1
    · exact h

lemma load_file_inv (now : ℚ) (ok : Bool) (path : String) (mlen : Option ℚ)
    (probe : ProbeResult) (s : PlayerState) :
    Inv (load_file now ok path mlen probe s) := by
  unfold load_file
  refine start_ffplay_inv now ok _ _ ?_
  unfold Inv
  simp only
  constructor <;> split <;> split <;> linarith

lemma stop_internal_inv (s : PlayerState) (h : Inv s) : Inv (stop_internal s) :=
  ⟨h.1, h.1⟩

/-- C4.  Every state reachable from the initial state satisfies
`0 ≤ length` and `pause_time ≤ length`: every writer of `pause_time`
(loading and stopping reset it to 0, pausing and scrubbing clamp it by
`length`, the timer tick sets it to `length` when the process exited)
preserves the invariant. -/
theorem C4_pause_time_le_length (s : PlayerState) (h : Reachable s) :
    0 ≤ s.length ∧ s.pause_time ≤ s.length := by
  induction h with
  | init => exact ⟨le_refl 0, le_refl 0⟩
  | load now ok path mlen probe s hs ih => exact load_file_inv now ok path mlen probe s
  | toggle now ok s hs ih => exact play_pause_toggle_inv now ok s ih
  | scrubStep now ok s hs ih => exact scrub_inv now ok s ih
  | tick now s hs ih => exact update_slider_inv now s ih
  | press s hs ih => exact ih
  | preview v s hs ih =>
    unfold update_preview_time
    split
    · exact ih
    · exact ih
  | setSlider v s hs ih => exact ih
  | stop s hs ih => exact stop_internal_inv s ih
  | closeWin s hs ih => exact ih
  | procExit s hs hp ih => exact ih

/-- C4 witness: the initial state is reachable and satisfies the
invariant. -/
theorem C4_witness : 0 ≤ initState.length ∧ initState.pause_time ≤ initState.length :=
  C4_pause_time_le_length initState Reachable.init

/-! ### C5: unknown or malformed files fall back without crashing -/

/-- C5 counterexample.  The claim says `extract_metadata` does not raise
when the metadata library "returns nothing or raises"; but the
`MutagenFile(path)` call on src/app.py line 217 sits outside the try
block, so when the library raises, `extract_metadata` raises too. -/
theorem C5_counterexample :
    extract_metadata "song.mp3" Outcome.raise
      (Outcome.ok { nonempty := false, tit2 := none, tpe1 := none, apicLoads := none }) =
      Outcome.raise := rfl

/-- C5 amended.  Whenever the metadata library's file-open call returns
(possibly a falsy object) rather than raising, `extract_metadata` does not
raise; and when the library returns nothing, or the ID3 tag read raises on
a non-FLAC file, the window falls back to the default title (the file's
base name) and the default album artwork.  (When the library's file-open
call itself raises, the exception propagates.) -/
theorem C5_amended_no_raise_when_library_returns
    (file_name : String) (mopt : Option MFile) (id3 : Outcome ID3Tags) :
    extract_metadata file_name (Outcome.ok mopt) id3 ≠ Outcome.raise ∧
    (mopt = none →
      extract_metadata file_name (Outcome.ok mopt) id3 =
        Outcome.ok { title := file_name, artist := "", defaultArt := true }) ∧
    (mopt = some MFile.other → id3 = Outcome.raise →
      extract_metadata file_name (Outcome.ok mopt) id3 =
        Outcome.ok { title := file_name, artist := "", defaultArt := true }) := by
  refine ⟨?_, ?_, ?_⟩
  · cases mopt with
    | none => simp [extract_metadata]
    | some audio =>
      cases id3 with
      | raise => cases audio <;> simp [extract_metadata]
      | ok tags => by_cases ht : tags.nonempty <;> simp [extract_metadata, ht]
  · intro h
    subst h
    rfl
  · intro h hid
    subst h
    subst hid
    rfl

/-- C5 witness: a file for which the library returns nothing. -/
theorem C5_witness :
    extract_metadata "a.flac" (Outcome.ok none) Outcome.raise ≠ Outcome.raise ∧
    extract_metadata "a.flac" (Outcome.ok none) Outcome.raise =
      Outcome.ok { title := "a.flac", artist := "", defaultArt := true } :=
  ⟨(C5_amended_no_raise_when_library_returns "a.flac" none Outcome.raise).1,
   (C5_amended_no_raise_when_library_returns "a.flac" none Outcome.raise).2.1 rfl⟩

/-! ### C6: the degraded title is the file's base name, not the empty string -/

/-- C6 counterexample.  For the file "song.mp3" whose ID3 tag read raises
(and which is not a FLAC), the displayed title is "song.mp3" — the file's
base name — not the empty string the claim states; the artist is empty and
the artwork is the default. -/
theorem C6_counterexample :
    extract_metadata "song.mp3" (Outcome.ok (some MFile.other)) Outcome.raise =
      Outcome.ok { title := "song.mp3", artist := "", defaultArt := true } ∧
    "song.mp3" ≠ "" :=
  ⟨rfl, by decide⟩

/-- C6 amended.  When the tag read fails (the library returns nothing, or
the ID3 read raises and the file is not a FLAC), the title displayed by
`extract_metadata` is the file's base name (`title = file_name` default at
src/app.py line 207), the artist is the empty string, and the artwork is
the default artwork. -/
theorem C6_amended_fallback_title_is_basename
    (file_name : String) (mopt : Option MFile)
    (hfail : mopt = none ∨ mopt = some MFile.other) :
    extract_metadata file_name (Outcome.ok mopt) Outcome.raise =
      Outcome.ok { title := file_name, artist := "", defaultArt := true } := by
  rcases hfail with h | h <;> subst h <;> rfl

/-- C6 witness: a non-FLAC file whose ID3 read raises. -/
theorem C6_witness :
    extract_metadata "b.mp3" (Outcome.ok (some MFile.other)) Outcome.raise =
      Outcome.ok { title := "b.mp3", artist := "", defaultArt := true } :=
  C6_amended_fallback_title_is_basename "b.mp3" (some MFile.other) (Or.inr rfl)

/-! ### C7: a missing or failing duration tool degrades to zero duration -/

/-- C7.  When `ffprobe` is absent, raises, or produces empty output,
`get_duration_with_ffprobe` returns 0; and when additionally the mutagen
length is absent or at most the `0.0001` threshold (so the probe is what
`load_file` consults), `load_file` sets `length = 0` — in particular not
negative — and leaves the seek slider disabled. -/
theorem C7_missing_duration_tool_zero
    (probe : ProbeResult)
    (hp : probe = ProbeResult.noExe ∨ probe = ProbeResult.raises ∨
      probe = ProbeResult.emptyOutput)
    (now : ℚ) (ok : Bool) (path : String) (mlen : Option ℚ)
    (hm : mlen.getD 0 ≤ 1 / 10000) (s : PlayerState) :
    get_duration_with_ffprobe probe = 0 ∧
    (load_file now ok path mlen probe s).length = 0 ∧
    0 ≤ (load_file now ok path mlen probe s).length ∧
    (load_file now ok path mlen probe s).sliderEnabled = false := by
  have hz : get_duration_with_ffprobe probe = 0 := by
    rcases hp with h | h | h <;> subst h <;> rfl
  have hlen : (load_file now ok path mlen probe s).length = 0 := by
    unfold load_file
    rw [start_ffplay_length]
    simp only
    rw [if_pos hm, hz]
    norm_num
  have hse : (load_file now ok path mlen probe s).sliderEnabled = false := by
    unfold load_file
    rw [start_ffplay_sliderEnabled]
    simp only
    rw [if_pos hm, hz]
    norm_num
  exact ⟨hz, hlen, by rw [hlen], hse⟩

/-- C7 witness: `ffprobe` absent, no mutagen length, the empty initial
state. -/
theorem C7_witness :
    get_duration_with_ffprobe ProbeResult.noExe = 0 ∧
    (load_file 0 true "c.wav" none ProbeResult.noExe initState).length = 0 ∧
    0 ≤ (load_file 0 true "c.wav" none ProbeResult.noExe initState).length ∧
    (load_file 0 true "c.wav" none ProbeResult.noExe initState).sliderEnabled = false :=
  C7_missing_duration_tool_zero ProbeResult.noExe (Or.inl rfl) 0 true "c.wav" none
    (by norm_num) initState

/-! ### C8: format_time renders zero-padded minutes and seconds -/

lemma padTwo_length_two (k : ℕ) (hk : k < 60) : (padTwo k).length = 2 := by
  have h : ∀ j, j < 60 → (padTwo j).length = 2 := by decide
  exact h k hk

lemma fmt02_natCast (k : ℕ) : fmt02 ((k : ℤ)) = padTwo k := rfl

lemma fdiv_natCast_sixty (n : ℕ) : Int.fdiv ((n : ℤ)) 60 = ((n / 60 : ℕ) : ℤ) :=
  (Int.ofNat_fdiv n 60).symm

lemma fmod_natCast_sixty (n : ℕ) : Int.fmod ((n : ℤ)) 60 = ((n % 60 : ℕ) : ℤ) :=
  (Int.ofNat_fmod n 60).symm

/-- C8.  For every non-negative number of seconds `t`, `format_time t` is
the decimal of `⌊t⌋ / 60` padded to at least two digits, a colon, and
`⌊t⌋ % 60` padded to two digits; the seconds component lies in `[0, 60)`
and its rendering is exactly two characters. -/
theorem C8_format_time_zero_padded (t : ℚ) (ht : 0 ≤ t) :
    format_time t = format_time_claim t ∧
    ⌊t⌋.toNat % 60 < 60 ∧
    (padTwo (⌊t⌋.toNat % 60)).length = 2 := by
  have h60 : ⌊t⌋.toNat % 60 < 60 := Nat.mod_lt _ (by norm_num)
  refine ⟨?_, h60, padTwo_length_two _ h60⟩
  have htr : ratTrunc t = ((⌊t⌋.toNat : ℤ)) := by
    unfold ratTrunc
    rw [if_pos ht, Int.toNat_of_nonneg (Int.floor_nonneg.mpr ht)]
  unfold format_time format_time_claim
  rw [htr, fdiv_natCast_sixty, fmod_natCast_sixty, fmt02_natCast, fmt02_natCast]

/-- C8 witness: 61 seconds renders as one minute and one second. -/
theorem C8_witness :
    (0 : ℚ) ≤ 61 ∧
    (format_time 61 = format_time_claim 61 ∧
     ⌊(61 : ℚ)⌋.toNat % 60 < 60 ∧
     (padTwo (⌊(61 : ℚ)⌋.toNat % 60)).length = 2) :=
  ⟨by norm_num, C8_format_time_zero_padded 61 (by norm_num)⟩

/-! ### C9: a slider click always yields an in-range value -/

lemma roundHalfEven_nonneg (q : ℚ) (h : 0 ≤ q) : 0 ≤ roundHalfEven q := by
  have h0 : 0 ≤ ⌊q⌋ := Int.floor_nonneg.mpr h
  unfold roundHalfEven
  split_ifs <;> omega

lemma roundHalfEven_le (q : ℚ) (M : ℤ) (h : q ≤ (M : ℚ)) : roundHalfEven q ≤ M := by
  have hfl : ⌊q⌋ ≤ M := by
    calc ⌊q⌋ ≤ ⌊(M : ℚ)⌋ := Int.floor_le_floor h
    _ = M := Int.floor_intCast M
  have hqf : (⌊q⌋ : ℚ) ≤ q := Int.floor_le q
  unfold roundHalfEven
  split_ifs with h1 h2 h3
  · exact hfl
  · have hlt : (⌊q⌋ : ℚ) < (M : ℚ) := by linarith
    have : ⌊q⌋ < M := by exact_mod_cast hlt
    omega
  · exact hfl
  · have h12 : (1 : ℚ) / 2 ≤ q - ⌊q⌋ := le_of_not_lt h1
    have hlt : (⌊q⌋ : ℚ) < (M : ℚ) := by linarith
    have : ⌊q⌋ < M := by exact_mod_cast hlt
    omega

/-- C9.  For every click abscissa `x` and width `w > 0` (the precondition
under which the division is defined), and every slider range with
`minimum ≤ maximum` (the widget invariant), the value computed by
`SeekSlider.mousePressEvent` — the clamped ratio times the span, rounded,
plus the minimum — lies between the minimum and the maximum inclusive. -/
theorem C9_click_value_in_range (x w : ℚ) (minV maxV : ℤ)
    (hw : 0 < w) (hrange : minV ≤ maxV) :
    minV ≤ mousePressValue x w minV maxV ∧ mousePressValue x w minV maxV ≤ maxV := by
  unfold mousePressValue
  simp only []
  have hr0 : (0 : ℚ) ≤ max 0 (min 1 (x / w)) := le_max_left _ _
  have hr1 : max 0 (min 1 (x / w)) ≤ 1 := max_le zero_le_one (min_le_left _ _)
  have hD0 : (0 : ℚ) ≤ (maxV : ℚ) - (minV : ℚ) := by
    rw [sub_nonneg]
    exact_mod_cast hrange
  have hq0 : 0 ≤ max 0 (min 1 (x / w)) * ((maxV : ℚ) - (minV : ℚ)) :=
    mul_nonneg hr0 hD0
  have hqM : max 0 (min 1 (x / w)) * ((maxV : ℚ) - (minV : ℚ)) ≤ ((maxV - minV : ℤ) : ℚ) := by
    push_cast
    nlinarith
  have h1 := roundHalfEven_nonneg _ hq0
  have h2 := roundHalfEven_le _ (maxV - minV) hqM
  constructor <;> omega

/-- C9 witness: a click at x = 200 on a width-400 slider ranging over
[0, 1000]. -/
theorem C9_witness :
    (0 : ℚ) < 400 ∧ (0 : ℤ) ≤ 1000 ∧
    (0 ≤ mousePressValue 200 400 0 1000 ∧ mousePressValue 200 400 0 1000 ≤ 1000) :=
  ⟨by norm_num, by norm_num,
   C9_click_value_in_range 200 400 0 1000 (by norm_num) (by norm_num)⟩

/-! ### C10: without a loaded track the controls are no-ops -/

/-- C10.  With `current_file = None`, `play_pause_toggle` returns the
state unchanged; and with `current_file = None` or `length = 0`, `scrub`
only clears the drag flag, leaving `pause_time`, `start_time`, and the
process handle (and everything else) unchanged. -/
theorem C10_controls_noop_without_track (s : PlayerState) (now : ℚ) (spawnOk : Bool) :
    (s.current_file = none → play_pause_toggle now spawnOk s = s) ∧
    ((s.current_file = none ∨ s.length = 0) →
      scrub now spawnOk s = { s with slider_dragging := false }) := by
  constructor
  · intro h
    unfold play_pause_toggle
    simp [h]
  · intro h
    unfold scrub
    simp only []
    rcases h with h | h
    · rw [if_pos (Or.inl h)]
    · rw [if_pos (Or.inr h)]

/-- C10 witness: the initial state has no file and zero length. -/
theorem C10_witness :
    play_pause_toggle 1 true initState = initState ∧
    scrub 1 true initState = { initState with slider_dragging := false } :=
  ⟨(C10_controls_noop_without_track initState 1 true).1 rfl,
   (C10_controls_noop_without_track initState 1 true).2 (Or.inl rfl)⟩

end IndyAudio
